import Mathlib

/-!
Verification of the genesis-ai routing layer.

Shallow embedding of `backend/app/core/router.py` (SmartRouter), the provider
adapters `claude_client.py` / `groq_client.py`, and `backend/ultimate_ai.py`
(UltimateAI).  Remote provider calls are modelled as oracles
(`Nat → String → Except String _`, indexed by attempt / call number); Python
dictionaries with fixed key sets are modelled as structures or inductives with
one constructor per returned dict shape; absent optional dict keys are
modelled with `Option` (for keys read through `.get`) or with the neutral
value `""` / `[]` (for keys only read when present).  Python floats are
modelled as exact rationals; `str.lower` is modelled on ASCII letters.
-/

/-! ## String helpers (Python `in`, `lower`, `split`) -/

/-- Whether `needle` occurs at the start of the second list. -/
def matchesAt : List Char → List Char → Bool
  | [], _ => true
  | _ :: _, [] => false
  | a :: as, b :: bs => a == b && matchesAt as bs

/-- Python substring test `needle in hay` on character lists. -/
def hasSubstring (needle : List Char) : List Char → Bool
  | [] => needle.isEmpty
  | b :: bs => matchesAt needle (b :: bs) || hasSubstring needle bs

/-- Count of whitespace-separated words; the flag records whether the previous
character was whitespace (or the start). -/
def countWordsAux : List Char → Bool → Nat
  | [], _ => 0
  | c :: cs, afterWs =>
    if c.isWhitespace then countWordsAux cs true
    else (if afterWs then 1 else 0) + countWordsAux cs false

/-- Python `len(s.split())`: the number of maximal whitespace-free runs. -/
def wordCount (s : String) : Nat := countWordsAux s.data true

/-- Python `s.lower()` (ASCII letters), character by character. -/
def pyLower (s : String) : String := String.mk (s.data.map Char.toLower)

/-- Python `needle in hay` on strings. -/
def strIn (needle hay : String) : Bool := hasSubstring needle.data hay.data

/-! ## Data model -/

/-- Embeds the per-call result dict produced by the provider adapters and read
by the router: keys `success`, `content`, `model`, `error`, `usage`.  The
router reads `content`/`model` only when `success` is true, and reads `error`
and `usage` through `.get`, hence the `Option` on `error`; `content`, `model`
and `usage` default to the neutral value in dict shapes that omit them. -/
structure GenerationResult where
  success : Bool
  content : String := ""
  model : String := ""
  error : Option String := none
  usage : List (String × Nat) := []
deriving DecidableEq

/-- The `TaskType` enumeration of `router.py`. -/
inductive TaskType where
  | creative_ui
  | code_generation
  | architecture
  | debugging
  | fast_simple
  | multimodal
  | modeling_3d
  | planning
  | refactoring
deriving DecidableEq, BEq

/-- The `.value` string of each `TaskType` member. -/
def TaskType.value : TaskType → String
  | .creative_ui => "creative_ui"
  | .code_generation => "code_generation"
  | .architecture => "architecture"
  | .debugging => "debugging"
  | .fast_simple => "fast_simple"
  | .multimodal => "multimodal"
  | .modeling_3d => "3d_modeling"
  | .planning => "planning"
  | .refactoring => "refactoring"

/-! ## SmartRouter.classify_task -/

/-- Keyword set for creative/UI tasks (router.py lines 49-52). -/
def creativeKeywords : List String :=
  ["design", "ui", "ux", "interface", "layout", "styling",
   "beautiful", "modern", "responsive", "frontend"]

/-- Keyword set for 3D/modeling tasks (router.py lines 56-58). -/
def modelingKeywords : List String :=
  ["3d", "blender", "unity", "model", "animation", "game"]

/-- Keyword set for multimodal tasks (router.py lines 62-64). -/
def multimodalKeywords : List String :=
  ["image", "picture", "visual", "screenshot", "diagram"]

/-- Keyword set for architecture tasks (router.py lines 68-71). -/
def architectureKeywords : List String :=
  ["architecture", "structure", "design pattern", "scalable",
   "system design", "database schema"]

/-- Keyword set for debugging tasks (router.py lines 75-78). -/
def debuggingKeywords : List String :=
  ["debug", "fix", "error", "bug", "issue", "problem",
   "not working", "broken"]

/-- Keyword set for planning tasks (router.py lines 82-85). -/
def planningKeywords : List String :=
  ["plan", "breakdown", "steps", "how to", "implement",
   "build", "create project"]

/-- Keyword set for refactoring tasks (router.py lines 89-91). -/
def refactoringKeywords : List String :=
  ["refactor", "improve", "optimize", "clean", "rewrite"]

/-- Keyword set for simple/fast tasks (router.py lines 95-97). -/
def fastSimpleKeywords : List String :=
  ["simple", "basic", "quick", "small"]

/-- Python `any(keyword in prompt_lower for keyword in kws)`. -/
def anyKeyword (kws : List String) (lower : String) : Bool :=
  kws.any (fun k => strIn k lower)

/-- Embeds `SmartRouter.classify_task` (router.py lines 44-101). -/
def classify_task (prompt : String) : TaskType :=
  let prompt_lower := pyLower prompt
  if anyKeyword creativeKeywords prompt_lower then .creative_ui
  else if anyKeyword modelingKeywords prompt_lower then .modeling_3d
  else if anyKeyword multimodalKeywords prompt_lower then .multimodal
  else if anyKeyword architectureKeywords prompt_lower then .architecture
  else if anyKeyword debuggingKeywords prompt_lower then .debugging
  else if anyKeyword planningKeywords prompt_lower then .planning
  else if anyKeyword refactoringKeywords prompt_lower then .refactoring
  else if wordCount prompt < 20 && anyKeyword fastSimpleKeywords prompt_lower
    then .fast_simple
  else .code_generation

/-! ## SmartRouter.quality_check -/

/-- The fixed explanatory-word set of `quality_check` (router.py line 122). -/
def explanationWords : List String := ["explain", "because", "reason", "here\x27s"]

/-- Embeds `SmartRouter.quality_check` (router.py lines 103-125); float
arithmetic modelled exactly over `ℚ`. -/
def quality_check (result : GenerationResult) : ℚ :=
  if !result.success then 0
  else
    let content := result.content
    let q0 : ℚ := 1/2
    let q1 : ℚ := if 100 ≤ content.length ∧ content.length ≤ 2000 then q0 + 2/10 else q0
    let q2 : ℚ := if strIn "```" content then q1 + 2/10 else q1
    let q3 : ℚ :=
      if explanationWords.any (fun w => strIn w (pyLower content)) then q2 + 1/10 else q2
    min q3 1

/-! ## SmartRouter preference table and prompt enhancer -/

/-- The `model_preferences` dict of `SmartRouter.__init__` (router.py lines 32-42). -/
def model_preferences : List (TaskType × List String) :=
  [(.creative_ui, ["claude", "gpt-4", "gemini"]),
   (.code_generation, ["claude", "gpt-4", "gemini"]),
   (.architecture, ["claude", "gpt-4"]),
   (.debugging, ["gpt-4", "claude"]),
   (.fast_simple, ["groq", "claude"]),
   (.multimodal, ["gemini", "gpt-4"]),
   (.modeling_3d, ["claude", "gpt-4"]),
   (.planning, ["claude", "gpt-4"]),
   (.refactoring, ["claude", "gpt-4"])]

/-- `self.model_preferences.get(task_type, ["claude", "gpt-4"])` (router.py line 140). -/
def preferredModels (tt : TaskType) : List String :=
  (List.lookup tt model_preferences).getD ["claude", "gpt-4"]

/-- The `TaskType.CREATIVE_UI` enhancer text (router.py lines 218-222). -/
def creativeUiEnhancer : String :=
  "\n            Focus on creating modern, beautiful, and responsive UI/UX designs.\n            Use contemporary design patterns and best practices.\n            Include accessibility considerations.\n            "

/-- The `TaskType.CODE_GENERATION` enhancer text (router.py lines 224-228). -/
def codeGenerationEnhancer : String :=
  "\n            Write clean, maintainable, and well-documented code.\n            Follow best practices and design patterns.\n            Include error handling where appropriate.\n            "

/-- The `TaskType.ARCHITECTURE` enhancer text (router.py lines 230-234). -/
def architectureEnhancer : String :=
  "\n            Focus on scalable, maintainable architecture.\n            Consider performance, security, and extensibility.\n            Explain your architectural decisions.\n            "

/-- The `TaskType.DEBUGGING` enhancer text (router.py lines 236-240). -/
def debuggingEnhancer : String :=
  "\n            Analyze the problem systematically.\n            Provide clear explanations of the root cause.\n            Offer multiple solutions when applicable.\n            "

/-- The `TaskType.PLANNING` enhancer text (router.py lines 242-246). -/
def planningEnhancer : String :=
  "\n            Break down the task into clear, actionable steps.\n            Consider dependencies and potential challenges.\n            Provide a realistic implementation roadmap.\n            "

/-- The `enhancers` dict of `SmartRouter._enhance_prompt` (router.py lines 217-247). -/
def enhancersTable : List (TaskType × String) :=
  [(.creative_ui, creativeUiEnhancer),
   (.code_generation, codeGenerationEnhancer),
   (.architecture, architectureEnhancer),
   (.debugging, debuggingEnhancer),
   (.planning, planningEnhancer)]

/-- Embeds `SmartRouter._enhance_prompt` (router.py lines 214-250):
`enhancer = enhancers.get(task_type, "")` followed by the f-string
`f"{prompt}\n\n{enhancer}"`. -/
def enhance_prompt (prompt : String) (task_type : TaskType) : String :=
  let enhancer := (List.lookup task_type enhancersTable).getD ""
  prompt ++ "\n\n" ++ enhancer

/-! ## SmartRouter.route_task -/

/-- An adapter-call oracle: given the attempt number and the model name,
either the `GenerationResult` dict returned by `_call_model`, or the message
of the exception raised by it (router.py lines 146-147 and 180-182). -/
def CallOracle : Type := Nat → String → Except String GenerationResult

/-- The router's final return value: one dict shape per `return` statement of
`route_task` (router.py lines 154-162, 168-176, 185-190). -/
inductive RouteOutcome where
  | ok (content model task_type : String) (quality_score : ℚ)
      (attempts : Nat) (usage : List (String × Nat))
  | fail (error task_type : String) (attempts : Nat)
deriving DecidableEq

/-- The success dict built at router.py lines 154-162 / 168-176. -/
def mkSuccessOutcome (r : GenerationResult) (ttv : String) (q : ℚ) (attempt : Nat) :
    RouteOutcome :=
  .ok r.content r.model ttv q (attempt + 1) r.usage

/-- Python f-string rendering of `last_error` (`None` when never set). -/
def lastErrorText : Option String → String
  | none => "None"
  | some e => e

/-- Embeds the inner `for model_name in preferred_models` loop of `route_task`
(router.py lines 145-182) for one attempt.  Returns the outcome produced by a
`return` inside the loop (if any), the final `last_error`, and the list of
adapter calls made, as `(attempt, model_name)` pairs in order. -/
def tryProviders (calls : CallOracle) (ttv : String) (max_attempts attempt : Nat) :
    List String → Option String →
    Option RouteOutcome × Option String × List (Nat × String)
  | [], last_error => (none, last_error, [])
  | m :: ms, last_error =>
    match calls attempt m with
    | .error e =>
      let rest := tryProviders calls ttv max_attempts attempt ms (some e)
      (rest.1, rest.2.1, (attempt, m) :: rest.2.2)
    | .ok r =>
      if r.success then
        let quality := quality_check r
        if 7/10 ≤ quality then
          (some (mkSuccessOutcome r ttv quality attempt), last_error, [(attempt, m)])
        else if attempt < max_attempts - 1 then
          let rest := tryProviders calls ttv max_attempts attempt ms last_error
          (rest.1, rest.2.1, (attempt, m) :: rest.2.2)
        else
          (some (mkSuccessOutcome r ttv quality attempt), last_error, [(attempt, m)])
      else
        let rest :=
          tryProviders calls ttv max_attempts attempt ms (some (r.error.getD "Unknown error"))
        (rest.1, rest.2.1, (attempt, m) :: rest.2.2)

/-- Embeds the outer `for attempt in range(max_attempts)` loop of `route_task`
(router.py lines 144-190); `fuel` counts the remaining iterations, so the
loop starts at `fuel = max_attempts, attempt = 0`, and exhausting `fuel`
reaches the all-models-failed return at lines 185-190. -/
def runAttempts (calls : CallOracle) (ttv : String) (max_attempts : Nat)
    (preferred : List String) :
    Nat → Nat → Option String → RouteOutcome × List (Nat × String)
  | 0, _, last_error =>
    (.fail ("All models failed. Last error: " ++ lastErrorText last_error) ttv max_attempts, [])
  | fuel + 1, attempt, last_error =>
    match tryProviders calls ttv max_attempts attempt preferred last_error with
    | (some o, _, tr) => (o, tr)
    | (none, le, tr) =>
      let rest := runAttempts calls ttv max_attempts preferred fuel (attempt + 1) le
      (rest.1, tr ++ rest.2)

/-- The `if not task_type: task_type = self.classify_task(prompt)` resolution
(router.py lines 136-137). -/
def resolveTaskType (task_type : Option TaskType) (prompt : String) : TaskType :=
  match task_type with
  | some t => t
  | none => classify_task prompt

/-- Embeds `SmartRouter.route_task` (router.py lines 127-190), additionally
returning the ordered list of adapter calls made. -/
def route_run (calls : CallOracle) (prompt : String) (task_type : Option TaskType)
    (max_attempts : Nat) : RouteOutcome × List (Nat × String) :=
  let tt := resolveTaskType task_type prompt
  let preferred := preferredModels tt
  runAttempts calls tt.value max_attempts preferred max_attempts 0 none

/-- The dict returned by `SmartRouter.route_task`. -/
def route_task (calls : CallOracle) (prompt : String) (task_type : Option TaskType)
    (max_attempts : Nat) : RouteOutcome :=
  (route_run calls prompt task_type max_attempts).1

/-- The ordered `(attempt, model_name)` list of adapter calls made by
`route_task`. -/
def route_calls (calls : CallOracle) (prompt : String) (task_type : Option TaskType)
    (max_attempts : Nat) : List (Nat × String) :=
  (route_run calls prompt task_type max_attempts).2

/-! ## Provider adapters (claude_client.py, groq_client.py) -/

/-- The fields of a successful Anthropic API response that
`ClaudeClient.generate` reads (claude_client.py lines 36-41). -/
structure ClaudePayload where
  text : String
  input_tokens : Nat
  output_tokens : Nat

/-- The default `model` argument of `ClaudeClient.generate`. -/
def claudeDefaultModel : String := "claude-3-sonnet-20240229"

/-- Embeds `ClaudeClient.generate` (claude_client.py lines 13-49).  The remote
call inside the `try` block is an oracle: `.ok` carries the response fields
read by the success branch, `.error` carries the message of any exception
raised inside the `try` block, which the `except` branch converts into a
failure dict. -/
def ClaudeClient.generate (response : Except String ClaudePayload)
    (model : String := claudeDefaultModel) : GenerationResult :=
  match response with
  | .ok r =>
    { success := true, content := r.text, model := model,
      usage := [("input_tokens", r.input_tokens), ("output_tokens", r.output_tokens)] }
  | .error e => { success := false, error := some e, model := model }

/-- The fields of a successful Groq API response that `GroqClient.generate`
reads (groq_client.py lines 47-55). -/
structure GroqPayload where
  content : String
  prompt_tokens : Nat
  completion_tokens : Nat
  total_tokens : Nat

/-- The default `model` argument of `GroqClient.generate`. -/
def groqDefaultModel : String := "mixtral-8x7b-32768"

/-- Embeds `GroqClient.generate` (groq_client.py lines 14-63).  `hasKey` is
the truth of `settings.GROQ_API_KEY` at construction (`self.client` is `None`
exactly when the key is absent, groq_client.py lines 8-12); the remote call is
an oracle as in `ClaudeClient.generate`. -/
def GroqClient.generate (hasKey : Bool) (response : Except String GroqPayload)
    (model : String := groqDefaultModel) : GenerationResult :=
  if !hasKey then
    { success := false, error := some "Groq API key not configured", model := model }
  else
    match response with
    | .ok r =>
      { success := true, content := r.content, model := model,
        usage := [("prompt_tokens", r.prompt_tokens),
                  ("completion_tokens", r.completion_tokens),
                  ("total_tokens", r.total_tokens)] }
    | .error e => { success := false, error := some e, model := model }

/-! ## UltimateAI (backend/ultimate_ai.py) -/

/-- The routing-relevant state of an `UltimateAI` instance: the key lists of
the `free_clients` and `web_clients` dicts in insertion order, and the
`prefer_free` flag.  The `stats` counters are not modelled: they are written
but never read by the routing logic. -/
structure UState where
  free_clients : List String
  web_clients : List String
  prefer_free : Bool

/-- The `simple_tasks` list of `UltimateAI._choose_provider` (ultimate_ai.py line 157). -/
def simple_tasks : List String := ["code", "general", "review"]

/-- The `complex_tasks` list of `UltimateAI._choose_provider` (ultimate_ai.py line 160). -/
def complex_tasks : List String := ["architecture", "planning", "complex_code"]

/-- Embeds `UltimateAI._choose_provider` (ultimate_ai.py lines 153-182);
`.error` is the `raise Exception("No AI providers available")`. -/
def choose_provider (st : UState) (task_type : String) : Except String String :=
  if simple_tasks.contains task_type && st.prefer_free
      && st.free_clients.contains "groq" then .ok "groq"
  else if simple_tasks.contains task_type && st.prefer_free
      && st.free_clients.contains "gemini" then .ok "gemini"
  else if complex_tasks.contains task_type && st.web_clients.contains "claude_web" then
    .ok "claude_web"
  else if complex_tasks.contains task_type && st.web_clients.contains "chatgpt_web" then
    .ok "chatgpt_web"
  else
    match st.free_clients with
    | p :: _ => .ok p
    | [] =>
      match st.web_clients with
      | p :: _ => .ok p
      | [] => .error "No AI providers available"

/-- Embeds `UltimateAI._get_fallback` (ultimate_ai.py lines 184-188). -/
def get_fallback (st : UState) (failed_provider : String) : Option String :=
  ((st.free_clients ++ st.web_clients).filter (fun p => p != failed_provider)).head?

/-- Embeds the body of the `try` block of `UltimateAI.generate` (ultimate_ai.py
lines 120-140): dispatch on whether the provider is a free client or a web
client (both remote calls are the oracle, indexed by the running call number
`k`), else the `raise Exception("No AI provider available")`. -/
def call_provider (st : UState) (oracle : Nat → String → Except String String)
    (k : Nat) (provider : String) : Except String String :=
  if st.free_clients.contains provider then oracle k provider
  else if st.web_clients.contains provider then oracle k provider
  else .error "No AI provider available"

/-- The success dict of `UltimateAI.generate` (ultimate_ai.py lines 136-140);
`cost` is `0.0` on both branches that reach it. -/
structure UOutcome where
  text : String
  provider : String
  cost : ℚ
deriving DecidableEq

/-- Embeds `UltimateAI.generate` (ultimate_ai.py lines 109-151) with a fuel
bound on the recursion depth: the result is `none` when `fuel` recursive
levels did not suffice (the Python code has no such bound), `some (.ok _)`
for a normal return, and `some (.error _)` for an uncaught exception.  Also
returns the ordered list of providers on which a remote call was made.  The
recursive call at line 149 passes `prompt`, `system_prompt` and `task_type`
unchanged, exactly as the source does. -/
def UltimateAI.generate (st : UState) (oracle : Nat → String → Except String String) :
    Nat → Nat → String → String → String →
    Option (Except String UOutcome) × List String
  | 0, _, _, _, _ => (none, [])
  | fuel + 1, k, prompt, system_prompt, task_type =>
    match choose_provider st task_type with
    | .error e => (some (.error e), [])
    | .ok provider =>
      match call_provider st oracle k provider with
      | .ok text => (some (.ok ⟨text, provider, 0⟩), [provider])
      | .error _ =>
        match get_fallback st provider with
        | some _ =>
          let rest := UltimateAI.generate st oracle fuel (k + 1) prompt system_prompt task_type
          (rest.1, provider :: rest.2)
        | none => (some (.error "All AI providers failed"), [provider])

/-! ## Observations on adapter calls, shared proof infrastructure -/

/-- Whether the adapter call recorded by trace entry `e` returned a dict with
a true `success` flag. -/
def succAt (calls : CallOracle) (e : Nat × String) : Bool :=
  match calls e.1 e.2 with
  | .ok r => r.success
  | .error _ => false

/-- The `GenerationResult` of the adapter call recorded by trace entry `e`
(a plain failure dict when the call raised). -/
def resultAt (calls : CallOracle) (e : Nat × String) : GenerationResult :=
  match calls e.1 e.2 with
  | .ok r => r
  | .error _ => { success := false }

/-- The quality score of the adapter call recorded by trace entry `e`. -/
def qualityAt (calls : CallOracle) (e : Nat × String) : ℚ :=
  quality_check (resultAt calls e)

/-- The trace entries of the final attempt whose adapter call returned a dict
with a true `success` flag. -/
def finalSuccEntries (calls : CallOracle) (prompt : String) (tto : Option TaskType)
    (ma : Nat) : List (Nat × String) :=
  (route_calls calls prompt tto ma).filter (fun e => (e.1 == ma - 1) && succAt calls e)

/-- Whether a `RouteOutcome` is the `success: False` dict shape. -/
def isFailureOutcome : RouteOutcome → Bool
  | .ok _ _ _ _ _ _ => false
  | .fail _ _ _ => true

/-! ## Spec-side comparison definitions and concrete scenarios -/

/-- The scoring formula as the specification words it: 0.0 on failure,
otherwise 0.5 plus independent bonuses of 0.2 (length in [100, 2000]),
0.2 (fenced code block marker) and 0.1 (explanatory word in the lower-cased
content), clamped to a maximum of 1.0.  Compared against `quality_check`. -/
def qualityScoreSpec (result : GenerationResult) : ℚ :=
  if result.success = false then 0
  else
    min ((1/2 : ℚ)
      + (if 100 ≤ result.content.length ∧ result.content.length ≤ 2000 then 2/10 else 0)
      + (if strIn "```" result.content then 2/10 else 0)
      + (if explanationWords.any (fun w => strIn w (pyLower result.content)) then 1/10
         else 0)) 1

/-- A 150-character content with a fenced code block marker and the word
`because`, realizing the specification's perfect-score example. -/
def c4content : String := "```because" ++ String.mk (List.replicate 140 'x')

/-- The classifier's checks in the priority order the specification lists,
paired with the category each selects.  The last check additionally requires
word count below 20. -/
def specChecks (prompt : String) : List (Bool × TaskType) :=
  let pl := pyLower prompt
  [(anyKeyword creativeKeywords pl, .creative_ui),
   (anyKeyword modelingKeywords pl, .modeling_3d),
   (anyKeyword multimodalKeywords pl, .multimodal),
   (anyKeyword architectureKeywords pl, .architecture),
   (anyKeyword debuggingKeywords pl, .debugging),
   (anyKeyword planningKeywords pl, .planning),
   (anyKeyword refactoringKeywords pl, .refactoring),
   (decide (wordCount prompt < 20) && anyKeyword fastSimpleKeywords pl, .fast_simple)]

/-- The category of the first passing check, with a default. -/
def firstMatch : List (Bool × TaskType) → TaskType
  | [] => .code_generation
  | c :: cs => if c.1 then c.2 else firstMatch cs

/-- The classifier as the specification words it: first matching category in
the fixed priority order, defaulting to code generation.  Compared against
`classify_task`. -/
def classifySpecOrder (prompt : String) : TaskType := firstMatch (specChecks prompt)

/-- Scenario oracle: the first preferred provider fails, the second succeeds
with a short (hence low-quality) result. -/
def c1WitnessCalls : CallOracle := fun _ m =>
  if m == "gpt-4" then .ok { success := true, content := "hi", model := "mg" }
  else .error "down"

/-- A successful result whose short content scores 0.5, below the 0.7
acceptance threshold. -/
def c2WitnessResult : GenerationResult :=
  { success := true, content := "fine", model := "m2" }

/-- Scenario oracle: every call returns the same low-quality success. -/
def c2WitnessCalls : CallOracle := fun _ _ => .ok c2WitnessResult

/-- Scenario oracle: the very first call is a low-quality success, every
other call raises. -/
def c3Calls : CallOracle := fun a m =>
  if a == 0 && m == "claude" then .ok { success := true, content := "hi", model := "c1" }
  else .error "boom"

/-- Scenario oracle: every call raises. -/
def c3WitnessCalls : CallOracle := fun _ _ => .error "nope"

/-- A content long enough, with a fenced code block marker and an explanatory
word, so that it scores 1.0, above the acceptance threshold. -/
def c6Content : String := "```because " ++ String.mk (List.replicate 100 'y')

/-- A successful high-quality result. -/
def c6Result : GenerationResult :=
  { success := true, content := c6Content, model := "mc" }

/-- Scenario oracle: the first provider answers with a high-quality success;
any other call raises (so a call to it is observable). -/
def c6Calls : CallOracle := fun a m =>
  if a == 0 && m == "claude" then .ok c6Result
  else .error "must never be called"

/-- Scenario oracle: every call succeeds with empty content and empty model
identifier. -/
def c9Calls : CallOracle := fun _ _ =>
  .ok { success := true, content := "", model := "m0" }

/-- Scenario oracle: every call succeeds with non-empty content and model. -/
def c9WitnessCalls : CallOracle := fun _ _ =>
  .ok { success := true, content := "hey", model := "m1" }

/-- An `UltimateAI` state with the two free clients configured, no web
clients, and `prefer_free` on. -/
def c10State : UState := ⟨["groq", "gemini"], [], true⟩

/-- Remote-call oracle under which every provider call raises. -/
def c10Oracle : Nat → String → Except String String := fun _ _ => .error "boom"

/-- Structure of one pass of the inner provider loop: either the pass falls
through (`None`) and every success it recorded was low-quality on a non-final
attempt, or it returns, and the returning call is the last trace entry, is a
success, and scored at least 0.7 or happened with no attempts left. -/
theorem tryProviders_spec (calls : CallOracle) (ttv : String) (ma attempt : Nat) :
    ∀ (ms : List String) (le : Option String),
      ((tryProviders calls ttv ma attempt ms le).1 = none ∧
        ∀ e ∈ (tryProviders calls ttv ma attempt ms le).2.2,
          e.1 = attempt ∧ (succAt calls e = true →
            qualityAt calls e < 7/10 ∧ attempt < ma - 1))
      ∨ (∃ tr₁ m r,
          (tryProviders calls ttv ma attempt ms le).2.2 = tr₁ ++ [(attempt, m)] ∧
          calls attempt m = .ok r ∧ r.success = true ∧
          (tryProviders calls ttv ma attempt ms le).1 =
            some (mkSuccessOutcome r ttv (quality_check r) attempt) ∧
          (7/10 ≤ quality_check r ∨ ¬ attempt < ma - 1) ∧
          ∀ e ∈ tr₁, e.1 = attempt ∧ (succAt calls e = true →
            qualityAt calls e < 7/10 ∧ attempt < ma - 1)) := by
  intro ms
  induction ms with
  | nil =>
    intro le
    left
    simp [tryProviders]
  | cons m ms ih =>
    intro le
    cases hc : calls attempt m with
    | error e =>
      rcases ih (some e) with ⟨h1, h2⟩ | ⟨tr₁, m', r', h1, h2, h3, h4, h5, h6⟩
      · left
        refine ⟨by simp [tryProviders, hc, h1], ?_⟩
        intro e' he'
        simp only [tryProviders, hc, List.mem_cons] at he'
        rcases he' with rfl | he'
        · exact ⟨rfl, by simp [succAt, hc]⟩
        · exact h2 e' he'
      · right
        refine ⟨(attempt, m) :: tr₁, m', r', ?_, h2, h3, ?_, h5, ?_⟩
        · simp [tryProviders, hc, h1]
        · simp [tryProviders, hc, h4]
        · intro e' he'
          rcases List.mem_cons.mp he' with rfl | he'
          · exact ⟨rfl, by simp [succAt, hc]⟩
          · exact h6 e' he'
    | ok r =>
      cases hs : r.success with
      | false =>
        rcases ih (some (r.error.getD "Unknown error")) with
          ⟨h1, h2⟩ | ⟨tr₁, m', r', h1, h2, h3, h4, h5, h6⟩
        · left
          refine ⟨by simp [tryProviders, hc, hs, h1], ?_⟩
          intro e' he'
          simp [tryProviders, hc, hs] at he'
          rcases he' with rfl | he'
          · exact ⟨rfl, by simp [succAt, hc, hs]⟩
          · exact h2 e' he'
        · right
          refine ⟨(attempt, m) :: tr₁, m', r', ?_, h2, h3, ?_, h5, ?_⟩
          · simp [tryProviders, hc, hs, h1]
          · simp [tryProviders, hc, hs, h4]
          · intro e' he'
            rcases List.mem_cons.mp he' with rfl | he'
            · exact ⟨rfl, by simp [succAt, hc, hs]⟩
            · exact h6 e' he'
      | true =>
        by_cases hq : 7/10 ≤ quality_check r
        · right
          exact ⟨[], m, r, by simp [tryProviders, hc, hs, hq], hc, hs,
            by simp [tryProviders, hc, hs, hq], Or.inl hq, by simp⟩
        · by_cases ha : attempt < ma - 1
          · rcases ih le with ⟨h1, h2⟩ | ⟨tr₁, m', r', h1, h2, h3, h4, h5, h6⟩
            · left
              refine ⟨by simp [tryProviders, hc, hs, hq, ha, h1], ?_⟩
              intro e' he'
              simp [tryProviders, hc, hs, hq, ha] at he'
              rcases he' with rfl | he'
              · refine ⟨rfl, fun _ => ⟨?_, ha⟩⟩
                simpa [qualityAt, resultAt, hc] using lt_of_not_le hq
              · exact h2 e' he'
            · right
              refine ⟨(attempt, m) :: tr₁, m', r', ?_, h2, h3, ?_, h5, ?_⟩
              · simp [tryProviders, hc, hs, hq, ha, h1]
              · simp [tryProviders, hc, hs, hq, ha, h4]
              · intro e' he'
                rcases List.mem_cons.mp he' with rfl | he'
                · refine ⟨rfl, fun _ => ⟨?_, ha⟩⟩
                  simpa [qualityAt, resultAt, hc] using lt_of_not_le hq
                · exact h6 e' he'
          · right
            exact ⟨[], m, r, by simp [tryProviders, hc, hs, hq, ha], hc, hs,
              by simp [tryProviders, hc, hs, hq, ha], Or.inr ha, by simp⟩

/-- Structure of `route_task`'s attempt loop: either some pass returned a
success outcome, built from a successful adapter call that is the last call
made and either scored at least 0.7 or happened in the final attempt, with
every earlier success low-quality and before the final attempt; or the loop
exhausted all attempts and returned the aggregate failure dict, with every
success made low-quality and before the final attempt. -/
theorem runAttempts_spec (calls : CallOracle) (ttv : String) (ma : Nat)
    (preferred : List String) :
    ∀ (fuel attempt : Nat) (le : Option String), attempt + fuel = ma →
      (∃ tr₁ a m r,
        (runAttempts calls ttv ma preferred fuel attempt le).2 = tr₁ ++ [(a, m)] ∧
        calls a m = .ok r ∧ r.success = true ∧
        (runAttempts calls ttv ma preferred fuel attempt le).1 =
          mkSuccessOutcome r ttv (quality_check r) a ∧
        (7/10 ≤ quality_check r ∨ a = ma - 1) ∧
        ∀ e ∈ tr₁, succAt calls e = true → qualityAt calls e < 7/10 ∧ e.1 < ma - 1)
      ∨ (∃ le2,
        (runAttempts calls ttv ma preferred fuel attempt le).1 =
          .fail ("All models failed. Last error: " ++ lastErrorText le2) ttv ma ∧
        ∀ e ∈ (runAttempts calls ttv ma preferred fuel attempt le).2,
          succAt calls e = true → qualityAt calls e < 7/10 ∧ e.1 < ma - 1) := by
  intro fuel
  induction fuel with
  | zero =>
    intro attempt le _
    right
    exact ⟨le, rfl, by simp [runAttempts]⟩
  | succ fuel ih =>
    intro attempt le hma
    have hsp := tryProviders_spec calls ttv ma attempt preferred le
    rcases ht : tryProviders calls ttv ma attempt preferred le with ⟨o, le2, tr⟩
    rw [ht] at hsp
    dsimp only at hsp
    cases o with
    | some out =>
      rcases hsp with ⟨hnone, _⟩ | ⟨tr₁, m, r, htr, hcall, hsucc, hout, hdisj, hprop⟩
      · simp at hnone
      · left
        refine ⟨tr₁, attempt, m, r, ?_, hcall, hsucc, ?_, ?_, ?_⟩
        · simp [runAttempts, ht, htr]
        · have hout2 := Option.some.inj hout
          simp [runAttempts, ht, hout2]
        · rcases hdisj with hq | hfin
          · exact Or.inl hq
          · exact Or.inr (by omega)
        · intro e he hsucc'
          obtain ⟨hfst, himp⟩ := hprop e he
          obtain ⟨hq', hlt⟩ := himp hsucc'
          exact ⟨hq', hfst ▸ hlt⟩
    | none =>
      rcases hsp with ⟨_, h2⟩ | ⟨tr₁, m, r, htr, hcall, hsucc, hout, hdisj, hprop⟩
      · have hIH := ih (attempt + 1) le2 (by omega)
        have hrw1 : (runAttempts calls ttv ma preferred (fuel + 1) attempt le).1 =
            (runAttempts calls ttv ma preferred fuel (attempt + 1) le2).1 := by
          simp [runAttempts, ht]
        have hrw2 : (runAttempts calls ttv ma preferred (fuel + 1) attempt le).2 =
            tr ++ (runAttempts calls ttv ma preferred fuel (attempt + 1) le2).2 := by
          simp [runAttempts, ht]
        rcases hIH with ⟨tr₁, a, m, r, htr, hcall, hsucc, hout, hdisj, hprop⟩ |
          ⟨le3, hfail, hprop⟩
        · left
          refine ⟨tr ++ tr₁, a, m, r, ?_, hcall, hsucc, ?_, hdisj, ?_⟩
          · rw [hrw2, htr, List.append_assoc]
          · rw [hrw1, hout]
          · intro e he hsucc'
            rcases List.mem_append.mp he with he | he
            · obtain ⟨hfst, himp⟩ := h2 e he
              obtain ⟨hq', hlt⟩ := himp hsucc'
              exact ⟨hq', hfst ▸ hlt⟩
            · exact hprop e he hsucc'
        · right
          refine ⟨le3, by rw [hrw1, hfail], ?_⟩
          intro e he hsucc'
          rw [hrw2] at he
          rcases List.mem_append.mp he with he | he
          · obtain ⟨hfst, himp⟩ := h2 e he
            obtain ⟨hq', hlt⟩ := himp hsucc'
            exact ⟨hq', hfst ▸ hlt⟩
          · exact hprop e he hsucc'
      · simp at hout

/-- Structure of `route_task` and its call trace, instantiating
`runAttempts_spec` at the entry point of the loop. -/
theorem route_run_spec (calls : CallOracle) (prompt : String) (tto : Option TaskType)
    (ma : Nat) :
    (∃ tr₁ a m r,
      route_calls calls prompt tto ma = tr₁ ++ [(a, m)] ∧
      calls a m = .ok r ∧ r.success = true ∧
      route_task calls prompt tto ma =
        mkSuccessOutcome r (resolveTaskType tto prompt).value (quality_check r) a ∧
      (7/10 ≤ quality_check r ∨ a = ma - 1) ∧
      ∀ e ∈ tr₁, succAt calls e = true → qualityAt calls e < 7/10 ∧ e.1 < ma - 1)
    ∨ (∃ le2,
      route_task calls prompt tto ma =
        .fail ("All models failed. Last error: " ++ lastErrorText le2)
          (resolveTaskType tto prompt).value ma ∧
      ∀ e ∈ route_calls calls prompt tto ma,
        succAt calls e = true → qualityAt calls e < 7/10 ∧ e.1 < ma - 1) := by
  have h := runAttempts_spec calls (resolveTaskType tto prompt).value ma
    (preferredModels (resolveTaskType tto prompt)) ma 0 none (by omega)
  simpa [route_task, route_calls, route_run] using h

/-- The aggregate error message of the all-models-failed dict is never the
empty string. -/
theorem failMessage_ne_empty (le : Option String) :
    ("All models failed. Last error: " ++ lastErrorText le) ≠ "" := by
  intro h
  have h1 := congrArg String.length h
  rw [String.length_append] at h1
  have h2 : ("All models failed. Last error: " : String).length = 31 := rfl
  have h3 : ("" : String).length = 0 := rfl
  omega

/-- C1: if no provider call during the final attempt scored at least 0.7 but
some adapter call of that final pass succeeded, then `route_task` returns a
success outcome built from a best (highest-scoring) successful result of the
final pass — in fact the final pass records at most one success, because its
first success returns immediately, so that success is trivially the maximum. -/
theorem routeTask_final_attempt_best_result (calls : CallOracle) (prompt : String)
    (tto : Option TaskType) (ma : Nat) (hma : 1 ≤ ma)
    (hlow : ∀ e ∈ finalSuccEntries calls prompt tto ma, qualityAt calls e < 7/10)
    (hne : finalSuccEntries calls prompt tto ma ≠ []) :
    ∀ e ∈ finalSuccEntries calls prompt tto ma,
      route_task calls prompt tto ma =
        mkSuccessOutcome (resultAt calls e) (resolveTaskType tto prompt).value
          (qualityAt calls e) (ma - 1) ∧
      ∀ e' ∈ finalSuccEntries calls prompt tto ma,
        qualityAt calls e' ≤ qualityAt calls e := by
  intro e he
  rcases route_run_spec calls prompt tto ma with
    ⟨tr₁, a, m, r, htr, hcall, hsucc, hout, hdisj, hprop⟩ | ⟨le2, hfail, hprop⟩
  · have hnil : tr₁.filter (fun x => (x.1 == ma - 1) && succAt calls x) = [] := by
      rw [List.filter_eq_nil_iff]
      intro x hx
      cases hsx : succAt calls x with
      | false => simp [hsx]
      | true =>
        have := (hprop x hx hsx).2
        simp only [Bool.and_eq_true, beq_iff_eq]
        intro hcontra
        omega
    have hsa : succAt calls (a, m) = true := by simp [succAt, hcall, hsucc]
    by_cases hA : a = ma - 1
    · subst hA
      have hfin : finalSuccEntries calls prompt tto ma = [(ma - 1, m)] := by
        unfold finalSuccEntries
        rw [htr, List.filter_append, hnil]
        simp [hsa]
      rw [hfin] at he hlow ⊢
      have he2 : e = (ma - 1, m) := by simpa using he
      subst he2
      have hres : resultAt calls (ma - 1, m) = r := by simp [resultAt, hcall]
      refine ⟨?_, ?_⟩
      · rw [hout]
        simp [qualityAt, hres]
      · intro e' he'
        have : e' = (ma - 1, m) := by simpa using he'
        subst this
        exact le_refl _
    · have hfin : finalSuccEntries calls prompt tto ma = [] := by
        unfold finalSuccEntries
        rw [htr, List.filter_append, hnil]
        simp [hsa, hA]
      exact absurd hfin hne
  · have hfin : finalSuccEntries calls prompt tto ma = [] := by
      unfold finalSuccEntries
      rw [List.filter_eq_nil_iff]
      intro x hx
      cases hsx : succAt calls x with
      | false => simp [hsx]
      | true =>
        have := (hprop x hx hsx).2
        simp only [Bool.and_eq_true, beq_iff_eq]
        intro hcontra
        omega
    exact absurd hfin hne

/-- Quality score of a successful result with content `"fine"`. -/
theorem quality_c2WitnessResult : quality_check c2WitnessResult = 1/2 := by
  simp only [quality_check, c2WitnessResult]
  norm_num [show strIn "```" "fine" = false from by decide,
    show (explanationWords.any fun w => strIn w (pyLower "fine")) = false from by decide,
    show ("fine" : String).length = 4 from rfl, min_def]

/-- Quality score of a successful result with content `"hi"`, for any values
of the remaining fields. -/
theorem quality_of_hi (mdl : String) (er : Option String) (us : List (String × Nat)) :
    quality_check
      { success := true, content := "hi", model := mdl, error := er, usage := us } = 1/2 := by
  simp only [quality_check]
  norm_num [show strIn "```" "hi" = false from by decide,
    show (explanationWords.any fun w => strIn w (pyLower "hi")) = false from by decide,
    show ("hi" : String).length = 2 from rfl, min_def]

/-- Quality score of the high-quality content `c6Content`. -/
theorem quality_c6Result : quality_check c6Result = 1 := by
  simp only [quality_check, c6Result]
  norm_num [show strIn "```" c6Content = true from by decide,
    show (explanationWords.any fun w => strIn w (pyLower c6Content)) = true from by decide,
    show c6Content.length = 111 from by decide, min_def]

/-- C2: with `max_attempts = 1`, if the first provider of the preference list
succeeds with any quality score below 0.7 (in particular 0.4 as the claim
instantiates it, though the concrete scorer assigns successes at least 0.5),
`route_task` returns `success: True` with that provider's content, that
quality score and `attempts = 1`, rather than a failure. -/
theorem routeTask_accepts_low_quality_single_attempt
    (calls : CallOracle) (prompt : String) (tt : TaskType) (m : String)
    (ms : List String) (r : GenerationResult)
    (hpref : preferredModels tt = m :: ms)
    (hcall : calls 0 m = .ok r) (hsucc : r.success = true)
    (hq : quality_check r < 7/10) :
    route_task calls prompt (some tt) 1 =
      .ok r.content r.model tt.value (quality_check r) 1 r.usage := by
  simp [route_task, route_run, resolveTaskType, hpref, runAttempts, tryProviders,
    hcall, hsucc, not_le.mpr hq, mkSuccessOutcome]

/-- C2 witness: a provider whose short answer scores 0.5 is accepted on a
single-attempt run. -/
theorem routeTask_accepts_low_quality_single_attempt_witness :
    route_task c2WitnessCalls "p" (some .architecture) 1 =
      .ok c2WitnessResult.content c2WitnessResult.model TaskType.architecture.value
        (quality_check c2WitnessResult) 1 c2WitnessResult.usage :=
  routeTask_accepts_low_quality_single_attempt c2WitnessCalls "p" .architecture
    "claude" ["gpt-4"] c2WitnessResult rfl rfl rfl
    (by rw [quality_c2WitnessResult]; norm_num)

/-- C6: whenever some adapter call made by `route_task` succeeds with quality
at least 0.7, that call is the last call made (no later provider of the list
and no further attempt is invoked) and `route_task` returns the success
outcome built from it; in particular, if the first provider of the list
answers with quality at least 0.7 on the first attempt, the call trace is
exactly that single call. -/
theorem routeTask_short_circuits_on_quality :
    (∀ (calls : CallOracle) (prompt : String) (tto : Option TaskType) (ma : Nat),
      ∀ e ∈ route_calls calls prompt tto ma,
        succAt calls e = true → 7/10 ≤ qualityAt calls e →
        (∃ tr₁, route_calls calls prompt tto ma = tr₁ ++ [e]) ∧
        route_task calls prompt tto ma =
          mkSuccessOutcome (resultAt calls e) (resolveTaskType tto prompt).value
            (qualityAt calls e) e.1) ∧
    (∀ (calls : CallOracle) (prompt : String) (tt : TaskType) (m : String)
      (ms : List String) (r : GenerationResult) (ma : Nat),
      preferredModels tt = m :: ms → 1 ≤ ma →
      calls 0 m = .ok r → r.success = true → 7/10 ≤ quality_check r →
      route_task calls prompt (some tt) ma =
        .ok r.content r.model tt.value (quality_check r) 1 r.usage ∧
      route_calls calls prompt (some tt) ma = [(0, m)]) := by
  constructor
  · intro calls prompt tto ma e he hs hq
    rcases route_run_spec calls prompt tto ma with
      ⟨tr₁, a, m, r, htr, hcall, hsucc, hout, hdisj, hprop⟩ | ⟨le2, hfail, hprop⟩
    · rw [htr] at he
      rcases List.mem_append.mp he with he1 | he1
      · exact absurd hq (not_le.mpr ((hprop e he1 hs).1))
      · have he2 : e = (a, m) := by simpa using he1
        subst he2
        have hres : resultAt calls (a, m) = r := by simp [resultAt, hcall]
        refine ⟨⟨tr₁, htr⟩, ?_⟩
        rw [hout]
        simp [qualityAt, hres]
    · exact absurd hq (not_le.mpr ((hprop e he hs).1))
  · intro calls prompt tt m ms r ma hpref hma hcall hsucc hq
    obtain ⟨f, rfl⟩ : ∃ f, ma = f + 1 := ⟨ma - 1, by omega⟩
    constructor <;>
      simp [route_task, route_calls, route_run, resolveTaskType, hpref, runAttempts,
        tryProviders, hcall, hsucc, hq, mkSuccessOutcome]

/-- C6 witness: with providers `[claude, gpt-4]` and claude answering with
quality 1.0, the only adapter call made is claude's. -/
theorem routeTask_short_circuits_on_quality_witness :
    route_task c6Calls "p" (some .architecture) 2 =
      .ok c6Result.content c6Result.model TaskType.architecture.value
        (quality_check c6Result) 1 c6Result.usage ∧
    route_calls c6Calls "p" (some .architecture) 2 = [(0, "claude")] :=
  routeTask_short_circuits_on_quality.2 c6Calls "p" .architecture "claude" ["gpt-4"]
    c6Result 2 rfl (by omega) rfl rfl (by rw [quality_c6Result]; norm_num)
/-- C1 witness: one attempt, providers `[claude, gpt-4]`, claude raises and
gpt-4 answers with quality 0.5: the final (only) pass has exactly one
success and `route_task` returns it. -/
theorem routeTask_final_attempt_best_result_witness :
    route_task c1WitnessCalls "p" (some TaskType.architecture) 1 =
      mkSuccessOutcome (resultAt c1WitnessCalls (0, "gpt-4")) "architecture"
        (qualityAt c1WitnessCalls (0, "gpt-4")) 0 := by
  have htr : route_calls c1WitnessCalls "p" (some TaskType.architecture) 1 =
      [(0, "claude"), (0, "gpt-4")] := by
    simp [route_calls, route_run, resolveTaskType, preferredModels, model_preferences,
      runAttempts, tryProviders, c1WitnessCalls, quality_of_hi,
      (by norm_num : ¬((7 : ℚ)/10 ≤ 1/2))]
  have hfse : finalSuccEntries c1WitnessCalls "p" (some TaskType.architecture) 1 =
      [(0, "gpt-4")] := by
    unfold finalSuccEntries
    rw [htr]
    decide
  have hlow : ∀ e ∈ finalSuccEntries c1WitnessCalls "p" (some TaskType.architecture) 1,
      qualityAt c1WitnessCalls e < 7/10 := by
    rw [hfse]
    intro e he
    have he2 : e = (0, "gpt-4") := by simpa using he
    subst he2
    have hres : resultAt c1WitnessCalls (0, "gpt-4") =
        { success := true, content := "hi", model := "mg" } := rfl
    rw [qualityAt, hres, quality_of_hi]
    norm_num
  have hne : finalSuccEntries c1WitnessCalls "p" (some TaskType.architecture) 1 ≠ [] := by
    rw [hfse]
    simp
  have hmem : (0, "gpt-4") ∈ finalSuccEntries c1WitnessCalls "p" (some TaskType.architecture) 1 := by
    rw [hfse]
    simp
  exact (routeTask_final_attempt_best_result c1WitnessCalls "p" (some .architecture) 1
    (by norm_num) hlow hne (0, "gpt-4") hmem).1

/-- C3: `route_task` returns the failure dict exactly when every success it
recorded was below the acceptance threshold and every call of the final
attempt failed; and in the concrete all-erroring two-provider scenario with
two attempts, exactly the four calls claude, gpt-4, claude, gpt-4 are made and
the failure message embeds the last (fourth) error. -/
theorem routeTask_failure_characterization :
    (∀ (calls : CallOracle) (prompt : String) (tto : Option TaskType) (ma : Nat),
      isFailureOutcome (route_task calls prompt tto ma) = true ↔
        ((∀ e ∈ route_calls calls prompt tto ma,
            succAt calls e = true → qualityAt calls e < 7/10) ∧
          (∀ e ∈ route_calls calls prompt tto ma,
            e.1 = ma - 1 → succAt calls e = false))) ∧
    (∀ (errs : Nat → String → String) (prompt : String),
      route_run (fun a m => Except.error (errs a m)) prompt (some TaskType.architecture) 2 =
        (.fail ("All models failed. Last error: " ++ errs 1 "gpt-4") "architecture" 2,
          [(0, "claude"), (0, "gpt-4"), (1, "claude"), (1, "gpt-4")])) := by
  constructor
  · intro calls prompt tto ma
    constructor
    · intro hfailure
      rcases route_run_spec calls prompt tto ma with
        ⟨tr₁, a, m, r, htr, hcall, hsucc, hout, hdisj, hprop⟩ | ⟨le2, hfail, hprop⟩
      · rw [hout] at hfailure
        simp [isFailureOutcome, mkSuccessOutcome] at hfailure
      · constructor
        · intro e he hs
          exact (hprop e he hs).1
        · intro e he hfst
          cases hsx : succAt calls e with
          | false => rfl
          | true =>
            have := (hprop e he hsx).2
            omega
    · rintro ⟨hq, hfin⟩
      rcases route_run_spec calls prompt tto ma with
        ⟨tr₁, a, m, r, htr, hcall, hsucc, hout, hdisj, hprop⟩ | ⟨le2, hfail, hprop⟩
      · exfalso
        have hmem : (a, m) ∈ route_calls calls prompt tto ma := by
          rw [htr]
          exact List.mem_append_right _ (by simp)
        have hsa : succAt calls (a, m) = true := by simp [succAt, hcall, hsucc]
        have hql : qualityAt calls (a, m) < 7/10 := hq _ hmem hsa
        have hqr : qualityAt calls (a, m) = quality_check r := by
          simp [qualityAt, resultAt, hcall]
        rcases hdisj with hge | hA
        · rw [hqr] at hql
          exact absurd hge (not_le.mpr hql)
        · have := hfin (a, m) hmem hA
          simp [hsa] at this
      · rw [hfail]
        rfl
  · intro errs prompt
    rfl

/-- C3 counterexample: an early low-quality success is recorded and then
discarded, yet the run still ends in the failure dict — so a failure outcome
does not imply that every adapter call failed. -/
theorem routeTask_failure_despite_success :
    isFailureOutcome (route_task c3Calls "p" (some TaskType.architecture) 2) = true ∧
    (0, "claude") ∈ route_calls c3Calls "p" (some TaskType.architecture) 2 ∧
    succAt c3Calls (0, "claude") = true := by
  have htask : route_task c3Calls "p" (some TaskType.architecture) 2 =
      .fail "All models failed. Last error: boom" "architecture" 2 := by
    simp [route_task, route_run, resolveTaskType, preferredModels, model_preferences,
      runAttempts, tryProviders, c3Calls, lastErrorText, quality_of_hi]
    norm_num [TaskType.value]
  have htr : route_calls c3Calls "p" (some TaskType.architecture) 2 =
      [(0, "claude"), (0, "gpt-4"), (1, "claude"), (1, "gpt-4")] := by
    simp [route_calls, route_run, resolveTaskType, preferredModels, model_preferences,
      runAttempts, tryProviders, c3Calls, quality_of_hi, lastErrorText]
    norm_num [TaskType.value]
  refine ⟨by rw [htask]; rfl, by rw [htr]; decide, rfl⟩

/-- C3 witness: with every call raising, the run is a failure. -/
theorem routeTask_failure_characterization_witness :
    isFailureOutcome (route_task c3WitnessCalls "p" (some TaskType.architecture) 2) = true := by
  apply (routeTask_failure_characterization.1 c3WitnessCalls "p"
    (some TaskType.architecture) 2).mpr
  constructor
  · intro e he hs
    simp [succAt, c3WitnessCalls] at hs
  · intro e he _
    simp [succAt, c3WitnessCalls]

set_option maxRecDepth 8192 in
/-- C4: the scorer returns 0.0 on failed results and otherwise 0.5 plus the
three content bonuses clamped at 1.0; every score lies in [0, 1]; and a
successful 150-character result with a fenced code block marker and the word
`because` scores exactly 1.0. -/
theorem quality_check_spec :
    (∀ r, quality_check r = qualityScoreSpec r) ∧
    (∀ r, 0 ≤ quality_check r ∧ quality_check r ≤ 1) ∧
    c4content.length = 150 ∧
    strIn "```" c4content = true ∧
    strIn "because" (pyLower c4content) = true ∧
    quality_check { success := true, content := c4content, model := "m" } = 1 := by
  refine ⟨?_, ?_, by decide, by decide, by decide, ?_⟩
  · intro r
    unfold quality_check qualityScoreSpec
    cases hs : r.success
    · simp [hs]
    · simp [hs]
      split_ifs <;> norm_num
  · intro r
    unfold quality_check
    cases hs : r.success
    · simp [hs]
    · simp only [hs, Bool.not_true, Bool.false_eq_true, if_false]
      constructor
      · refine le_min ?_ zero_le_one
        split_ifs <;> norm_num
      · exact min_le_right _ _
  · simp only [quality_check]
    norm_num [show strIn "```" c4content = true from by decide,
      show (explanationWords.any fun w => strIn w (pyLower c4content)) = true from by decide,
      show c4content.length = 150 from by decide, min_def]

/-- C5: the classifier agrees with the specification's first-match priority
order over the nine categories, and the two concrete examples classify as the
specification states. -/
theorem classify_task_spec :
    (∀ p, classify_task p = classifySpecOrder p) ∧
    classify_task "design a debug fix for the UI" = TaskType.creative_ui ∧
    classify_task "hello" = TaskType.code_generation := by
  refine ⟨fun p => rfl, by decide, by decide⟩

/-- C7: for all prompts, the five categories with a defined suffix get the
prompt, a blank-line separator and that suffix; the remaining four get the
prompt followed by the bare blank-line separator (the separator is appended
unconditionally by the f-string). -/
theorem enhance_prompt_spec : ∀ p : String,
    enhance_prompt p .creative_ui = p ++ "\n\n" ++ creativeUiEnhancer ∧
    enhance_prompt p .code_generation = p ++ "\n\n" ++ codeGenerationEnhancer ∧
    enhance_prompt p .architecture = p ++ "\n\n" ++ architectureEnhancer ∧
    enhance_prompt p .debugging = p ++ "\n\n" ++ debuggingEnhancer ∧
    enhance_prompt p .planning = p ++ "\n\n" ++ planningEnhancer ∧
    enhance_prompt p .fast_simple = p ++ "\n\n" ∧
    enhance_prompt p .multimodal = p ++ "\n\n" ∧
    enhance_prompt p .modeling_3d = p ++ "\n\n" ∧
    enhance_prompt p .refactoring = p ++ "\n\n" := by
  intro p
  refine ⟨rfl, rfl, rfl, rfl, rfl, ?_, ?_, ?_, ?_⟩ <;>
    · show p ++ "\n\n" ++ "" = p ++ "\n\n"
      exact String.append_empty _

/-- C7 counterexample: a category without a suffix does not return the prompt
unchanged — the blank-line separator is still appended. -/
theorem enhance_prompt_not_identity :
    enhance_prompt "hello" .fast_simple = "hello\n\n" ∧
    "hello\n\n" ≠ "hello" := by
  exact ⟨by decide, by decide⟩

/-- C8: both adapters are total functions into result dicts — an exception of
the remote call (oracle `.error`) is converted into a failure dict carrying
the exception text and the model identifier, an absent Groq key yields the
configured-key failure dict without any remote call, and successes carry the
response content and usage. -/
theorem adapter_generate_no_raise :
    (∀ e model, ClaudeClient.generate (.error e) model =
      { success := false, content := "", model := model, error := some e, usage := [] }) ∧
    (∀ pay model, ClaudeClient.generate (.ok pay) model =
      { success := true, content := pay.text, model := model, error := none,
        usage := [("input_tokens", pay.input_tokens),
                  ("output_tokens", pay.output_tokens)] }) ∧
    (∀ resp model, GroqClient.generate false resp model =
      { success := false, content := "", model := model,
        error := some "Groq API key not configured", usage := [] }) ∧
    (∀ e model, GroqClient.generate true (.error e) model =
      { success := false, content := "", model := model, error := some e, usage := [] }) ∧
    (∀ pay model, GroqClient.generate true (.ok pay) model =
      { success := true, content := pay.content, model := model, error := none,
        usage := [("prompt_tokens", pay.prompt_tokens),
                  ("completion_tokens", pay.completion_tokens),
                  ("total_tokens", pay.total_tokens)] }) :=
  ⟨fun _ _ => rfl, fun _ _ => rfl, fun _ _ => rfl, fun _ _ => rfl, fun _ _ => rfl⟩

/-- C9 (amended): a failure outcome always carries a non-empty error message
(and, structurally, no content field); a success outcome carries the content
and model of the successful adapter call it came from, so whenever every
successful adapter result has non-empty content and model identifier, the
success outcome's content and model are non-empty. -/
theorem routeTask_outcome_fields (calls : CallOracle) (prompt : String)
    (tto : Option TaskType) (ma : Nat)
    (hadapters : ∀ a m r, calls a m = .ok r → r.success = true →
      r.content ≠ "" ∧ r.model ≠ "") :
    match route_task calls prompt tto ma with
    | .ok c mdl _ _ _ _ => c ≠ "" ∧ mdl ≠ ""
    | .fail e _ _ => e ≠ "" := by
  rcases route_run_spec calls prompt tto ma with
    ⟨tr₁, a, m, r, htr, hcall, hsucc, hout, hdisj, hprop⟩ | ⟨le2, hfail, hprop⟩
  · rw [hout]
    exact hadapters a m r hcall hsucc
  · rw [hfail]
    exact failMessage_ne_empty le2

/-- C9 counterexample: an adapter success with empty content is passed
through verbatim, so a success outcome whose content is the empty string is
reachable, violating the unconditional non-emptiness invariant. -/
theorem routeTask_empty_content_success :
    route_task c9Calls "p" (some TaskType.architecture) 1 =
      .ok "" "m0" "architecture" (1/2) 1 [] := by
  have hq : quality_check { success := true, content := "", model := "m0" } = 1/2 := by
    simp only [quality_check]
    norm_num [show strIn "```" "" = false from by decide,
      show (explanationWords.any fun w => strIn w (pyLower "")) = false from by decide,
      show ("" : String).length = 0 from rfl, min_def]
  simp [route_task, route_run, resolveTaskType, preferredModels, model_preferences,
    runAttempts, tryProviders, c9Calls, hq, mkSuccessOutcome, TaskType.value]

/-- C9 witness: when the adapter answers with non-empty content and model,
the outcome invariant holds. -/
theorem routeTask_outcome_fields_witness :
    match route_task c9WitnessCalls "p" (some TaskType.architecture) 1 with
    | .ok c mdl _ _ _ _ => c ≠ "" ∧ mdl ≠ ""
    | .fail e _ _ => e ≠ "" := by
  apply routeTask_outcome_fields c9WitnessCalls "p" (some TaskType.architecture) 1
  intro a m r h _
  injection h with h2
  subst h2
  exact ⟨by decide, by decide⟩

/-- C10: when the provider chosen for a task raises on every call and a
fallback provider exists, `UltimateAI.generate` retries itself with unchanged
arguments, chooses the same provider again, never terminates (no fuel bound
suffices) and never calls any provider other than the chosen one — in
particular never the computed fallback. -/
theorem ultimateAI_generate_nontermination
    (st : UState) (oracle : Nat → String → Except String String)
    (prompt system_prompt task_type provider : String)
    (hchoose : choose_provider st task_type = .ok provider)
    (herr : ∀ n, ∃ msg, oracle n provider = .error msg)
    (hfb : ∃ fb, get_fallback st provider = some fb) :
    ∀ fuel k,
      (UltimateAI.generate st oracle fuel k prompt system_prompt task_type).1 = none ∧
      ∀ p ∈ (UltimateAI.generate st oracle fuel k prompt system_prompt task_type).2,
        p = provider := by
  intro fuel
  induction fuel with
  | zero =>
    intro k
    exact ⟨rfl, by simp [UltimateAI.generate]⟩
  | succ fuel ih =>
    intro k
    obtain ⟨msg, hmsg⟩ := herr k
    obtain ⟨fb, hfb2⟩ := hfb
    have hcp : call_provider st oracle k provider = .error msg ∨
        call_provider st oracle k provider = .error "No AI provider available" := by
      unfold call_provider
      split_ifs <;> simp [hmsg]
    have hred : UltimateAI.generate st oracle (fuel + 1) k prompt system_prompt task_type =
        ((UltimateAI.generate st oracle fuel (k + 1) prompt system_prompt task_type).1,
          provider ::
            (UltimateAI.generate st oracle fuel (k + 1) prompt system_prompt task_type).2) := by
      rcases hcp with hcp | hcp <;>
        simp [UltimateAI.generate, hchoose, hcp, hfb2]
    rw [hred]
    refine ⟨(ih (k + 1)).1, ?_⟩
    intro p hp
    rcases List.mem_cons.mp hp with rfl | hp
    · rfl
    · exact (ih (k + 1)).2 p hp

/-- C10 witness: groq and gemini configured, groq chosen for a `general` task
and always failing — five fuel levels are not enough (nor is any number). -/
theorem ultimateAI_generate_nontermination_witness :
    (UltimateAI.generate c10State c10Oracle 5 0 "p" "" "general").1 = none :=
  (ultimateAI_generate_nontermination c10State c10Oracle "p" "" "general" "groq"
    rfl (fun n => ⟨"boom", rfl⟩) ⟨"gemini", rfl⟩ 5 0).1
